import Mathlib

/-!
# Verification of the FacialPain analysis notebook

A shallow embedding of the analysis code in `FacialPain.ipynb`
(derived-feature construction, cohort filtering, descriptive statistics,
classification thresholds, and the clustering silhouette sweep), together
with theorems settling the specification claims about that code.

Conventions of the embedding:
* a pandas `NaN` cell is modelled as `Option.none`;
* pandas numeric values are modelled as `ℚ`;
* library calls (`pandas`, `scipy`, `sklearn`) are modelled by their
  documented semantics at the call sites the notebook uses.
-/

namespace FacialPain

/-- One row of the clinical table (`df`), with the columns the analysis
touches.  Questionnaire items are nullable numerics; the two C-SSRS
screening responses are nullable strings.  Field names follow the CSV
column names used in the notebook (including the `ABM_` typo of the
walking-ability column). -/
structure Row where
  PAT_ID : String
  D_ICD_DESC : String
  D_GENDER_DESC : String
  IP_R_NEU_CSSRS_SUICIDAL_THOUGHTS : Option String
  IP_R_SW_CSSRS_SUICIDAL_BEHAVIOR : Option String
  CIRCLE_THE_ONE_NUMBER_THAT_DESCRIBES_YOUR_PAIN_RIGHT_NOW : Option ℚ
  AMB_NSR_R_PAIN_AT_ITS_WORST_IN_LAST_WEEK : Option ℚ
  AMB_NSR_R_PAIN_AT_ITS_LEAST_IN_LAST_WEEK : Option ℚ
  AMB_NSR_R_PAIN_AT_ITS_AVERAGE_IN_LAST_WEEK : Option ℚ
  AMB_NSR_R_GENERAL_ACTIVITY : Option ℚ
  AMB_NSR_R_MOOD : Option ℚ
  AMB_NSR_R_NORMAL_WORK : Option ℚ
  AMB_NSR_R_RELATIONS_WITH_OTHER_PEOPLE : Option ℚ
  AMB_NSR_R_SLEEP : Option ℚ
  AMB_NSR_R_ENJOYMENT_OF_LIFE : Option ℚ
  ABM_NSR_R_WALKING_ABILITY : Option ℚ
  AMB_NSR_R_EATING_A_MEAL : Option ℚ
  AMB_NSR_R_TOUCHING_YOUR_FACE : Option ℚ
  AMB_NSR_R_BRUSHING_OR_FLOSSING_YOUR_TEETH : Option ℚ
  AMB_NSR_R_SMILING_OR_LAUGHING : Option ℚ
  AMB_NSR_R_TALKING : Option ℚ
  AMB_NSR_R_OPENING_YOUR_MOUTH_WIDELY : Option ℚ
  AMB_NSR_R_EATING_HARD_FOODS_LIKE_APPLES : Option ℚ
  AMB_NSR_R_BRIEF_PAIN_INVENTORY_FACIAL_SCORE : Option ℚ

/-- The diagnosis re-mapping dictionary `ICD_map` of the notebook,
verbatim (some keys carry trailing spaces in the source, kept here). -/
def ICD_map : List (String × String) :=
  [(("ATYPICAL FACIAL PAIN"), ("AFP")),
   (("ATYPICAL FACE PAIN"), ("AFP")),
   (("CLONIC HEMIFACIAL SPASM"), ("HFS")),
   (("MULTIPLE SCLEROSIS"), ("MS")),
   (("TRIGEMINAL NEURALGIA"), ("TN")),
   (("CHRONIC PAIN DUE TO TRAUMA"), ("Posttraumatic")),
   (("POSTHERPETIC TRIGEMINAL NEURALGIA"), ("PHTN")),
   (("OTH TRIGEMINAL AUTONOM CEPHALGIAS INTRACTABLE "), ("Other")),
   (("OTH TRIGEMINAL AUTONOM CEPHALGIAS NOT INTRACT"), ("Other")),
   (("OTHER TRIGEMINAL AUTONOM CEPHALGIAS "), ("Other")),
   (("OTHER DISORDERS OF TRIGEMINAL NERVE"), ("Other")),
   (("OTHER SPECIFIED TRIGEMINAL NERVE DISORDERS"), ("Other")),
   (("OTHER FACIAL NERVE DISORDERS"), ("Other"))]

/-- `df['ICD_Clean'] = df['D_ICD_DESC'].map(ICD_map)`: pandas `Series.map`
with a dict returns the mapped value for keys in the dict and `NaN`
(here `none`) for any key not in the dict; it never raises. -/
def ICD_Clean (r : Row) : Option String :=
  ICD_map.lookup r.D_ICD_DESC

/-- `df['ICD_TN'] = df['ICD_Clean'].apply(lambda x: 1 if x == 'TN' else 0)`. -/
def ICD_TN (r : Row) : ℕ :=
  if ICD_Clean r = some ("TN") then 1 else 0

/-- `CSRSS_map = {'No': 0, 'Yes': 1}` applied via `Series.map`: the two
mapped strings go to `0`/`1`, anything else (including `NaN`) to `NaN`. -/
def CSRSS_map (o : Option String) : Option ℕ :=
  match o with
  | none => none
  | some s => if s = ("No") then some 0 else if s = ("Yes") then some 1 else none

/-- `df['CSRSS_Thoughts'] = df['IP_R_NEU_CSSRS_SUICIDAL_THOUGHTS'].map(CSRSS_map)`. -/
def CSRSS_Thoughts (r : Row) : Option ℕ :=
  CSRSS_map r.IP_R_NEU_CSSRS_SUICIDAL_THOUGHTS

/-- `df['CSRSS_Behaviors'] = df['IP_R_SW_CSSRS_SUICIDAL_BEHAVIOR'].map(CSRSS_map)`. -/
def CSRSS_Behaviors (r : Row) : Option ℕ :=
  CSRSS_map r.IP_R_SW_CSSRS_SUICIDAL_BEHAVIOR

/-- `df['CSRSS_Either'] = df[['CSRSS_Thoughts','CSRSS_Behaviors']].sum(axis=1, skipna=True)`
followed by `.apply(lambda x: 1 if x > 0 else 0)`.  pandas row-wise `sum`
with `skipna=True` treats `NaN` as 0 (an all-`NaN` row sums to 0), so the
result is always 0 or 1, never `NaN`. -/
def CSRSS_Either (r : Row) : ℕ :=
  if (CSRSS_Thoughts r).getD 0 + (CSRSS_Behaviors r).getD 0 > 0 then 1 else 0

/-- A fully answered reference row used to build concrete test records. -/
def baseRow : Row where
  PAT_ID := ("P0")
  D_ICD_DESC := ("TRIGEMINAL NEURALGIA")
  D_GENDER_DESC := ("Female")
  IP_R_NEU_CSSRS_SUICIDAL_THOUGHTS := some ("No")
  IP_R_SW_CSSRS_SUICIDAL_BEHAVIOR := some ("No")
  CIRCLE_THE_ONE_NUMBER_THAT_DESCRIBES_YOUR_PAIN_RIGHT_NOW := some 0
  AMB_NSR_R_PAIN_AT_ITS_WORST_IN_LAST_WEEK := some 0
  AMB_NSR_R_PAIN_AT_ITS_LEAST_IN_LAST_WEEK := some 0
  AMB_NSR_R_PAIN_AT_ITS_AVERAGE_IN_LAST_WEEK := some 0
  AMB_NSR_R_GENERAL_ACTIVITY := some 0
  AMB_NSR_R_MOOD := some 0
  AMB_NSR_R_NORMAL_WORK := some 0
  AMB_NSR_R_RELATIONS_WITH_OTHER_PEOPLE := some 0
  AMB_NSR_R_SLEEP := some 0
  AMB_NSR_R_ENJOYMENT_OF_LIFE := some 0
  ABM_NSR_R_WALKING_ABILITY := some 0
  AMB_NSR_R_EATING_A_MEAL := some 0
  AMB_NSR_R_TOUCHING_YOUR_FACE := some 0
  AMB_NSR_R_BRUSHING_OR_FLOSSING_YOUR_TEETH := some 0
  AMB_NSR_R_SMILING_OR_LAUGHING := some 0
  AMB_NSR_R_TALKING := some 0
  AMB_NSR_R_OPENING_YOUR_MOUTH_WIDELY := some 0
  AMB_NSR_R_EATING_HARD_FOODS_LIKE_APPLES := some 0
  AMB_NSR_R_BRIEF_PAIN_INVENTORY_FACIAL_SCORE := some 0

/-- A row whose only derivation-relevant fields are the two raw C-SSRS
responses. -/
def rowCSSRS (t b : Option String) : Row :=
  { baseRow with
      IP_R_NEU_CSSRS_SUICIDAL_THOUGHTS := t
      IP_R_SW_CSSRS_SUICIDAL_BEHAVIOR := b }

/-- A row carrying a given raw diagnosis text. -/
def rowDx (s : String) : Row :=
  { baseRow with D_ICD_DESC := s }

lemma CSRSS_map_cases (o : Option String) :
    CSRSS_map o = none ∨ CSRSS_map o = some 0 ∨ CSRSS_map o = some 1 := by
  rcases o with _ | s
  · exact Or.inl rfl
  · unfold CSRSS_map
    by_cases h1 : s = ("No")
    · simp [h1]
    · by_cases h2 : s = ("Yes") <;> simp [h1, h2]

/-- C1.  `either_flag` is 1 exactly when at least one of the two derived
screening flags is 1; it is always 0 or 1 (never null); a row with one
flag 1 and the other null derives to 1, and a row with both flags null
derives to 0 (the zero-fill of the skipna sum). -/
theorem C1_either_flag_zero_fill (r : Row) :
    (CSRSS_Either r = 0 ∨ CSRSS_Either r = 1) ∧
    (CSRSS_Either r = 1 ↔
      (CSRSS_Thoughts r = some 1 ∨ CSRSS_Behaviors r = some 1)) ∧
    (CSRSS_Thoughts r = some 1 → CSRSS_Behaviors r = none → CSRSS_Either r = 1) ∧
    (CSRSS_Thoughts r = none → CSRSS_Behaviors r = none → CSRSS_Either r = 0) := by
  have ht := CSRSS_map_cases r.IP_R_NEU_CSSRS_SUICIDAL_THOUGHTS
  have hb := CSRSS_map_cases r.IP_R_SW_CSSRS_SUICIDAL_BEHAVIOR
  have et : CSRSS_Thoughts r = CSRSS_map r.IP_R_NEU_CSSRS_SUICIDAL_THOUGHTS := rfl
  have eb : CSRSS_Behaviors r = CSRSS_map r.IP_R_SW_CSSRS_SUICIDAL_BEHAVIOR := rfl
  rw [← et] at ht
  rw [← eb] at hb
  unfold CSRSS_Either
  rcases ht with h | h | h <;> rcases hb with h' | h' | h' <;>
    simp [h, h'] at *

/-- Witness for C1 at concrete rows: thoughts answered "Yes" with the
behaviors response missing derives `either_flag = 1`; both responses
missing derives `either_flag = 0`. -/
theorem C1_either_flag_zero_fill_witness :
    CSRSS_Either (rowCSSRS (some ("Yes")) none) = 1 ∧
    CSRSS_Either (rowCSSRS none none) = 0 :=
  ⟨(C1_either_flag_zero_fill (rowCSSRS (some ("Yes")) none)).2.2.1 (by decide) (by decide),
   (C1_either_flag_zero_fill (rowCSSRS none none)).2.2.2 (by decide) (by decide)⟩

/-- Counterexample to C2 as stated: "POSTTRAUMATIC NEURALGIA" is absent
from the mapping table, yet deriving does not raise — the derived
category is silently the null value (`pandas.Series.map` yields `NaN`
for keys outside the dict, and the notebook performs no validation). -/
theorem C2_unmapped_dx_yields_null_counterexample :
    ICD_map.lookup ("POSTTRAUMATIC NEURALGIA") = none ∧
    ICD_Clean (rowDx ("POSTTRAUMATIC NEURALGIA")) = none := by
  constructor <;> rfl

/-- C2 amended.  For every raw diagnosis string present in the mapping
table, the derived category is the mapped code (all thirteen entries
checked); for every raw string absent from the table the derived
category is null — derivation is total and silent, no error is raised. -/
theorem C2_icd_mapping_silent_null :
    (ICD_Clean (rowDx ("ATYPICAL FACIAL PAIN")) = some ("AFP")) ∧
    (ICD_Clean (rowDx ("ATYPICAL FACE PAIN")) = some ("AFP")) ∧
    (ICD_Clean (rowDx ("CLONIC HEMIFACIAL SPASM")) = some ("HFS")) ∧
    (ICD_Clean (rowDx ("MULTIPLE SCLEROSIS")) = some ("MS")) ∧
    (ICD_Clean (rowDx ("TRIGEMINAL NEURALGIA")) = some ("TN")) ∧
    (ICD_Clean (rowDx ("CHRONIC PAIN DUE TO TRAUMA")) = some ("Posttraumatic")) ∧
    (ICD_Clean (rowDx ("POSTHERPETIC TRIGEMINAL NEURALGIA")) = some ("PHTN")) ∧
    (ICD_Clean (rowDx ("OTH TRIGEMINAL AUTONOM CEPHALGIAS INTRACTABLE ")) = some ("Other")) ∧
    (ICD_Clean (rowDx ("OTH TRIGEMINAL AUTONOM CEPHALGIAS NOT INTRACT")) = some ("Other")) ∧
    (ICD_Clean (rowDx ("OTHER TRIGEMINAL AUTONOM CEPHALGIAS ")) = some ("Other")) ∧
    (ICD_Clean (rowDx ("OTHER DISORDERS OF TRIGEMINAL NERVE")) = some ("Other")) ∧
    (ICD_Clean (rowDx ("OTHER SPECIFIED TRIGEMINAL NERVE DISORDERS")) = some ("Other")) ∧
    (ICD_Clean (rowDx ("OTHER FACIAL NERVE DISORDERS")) = some ("Other")) ∧
    (∀ s : String, ICD_map.lookup s = none → ICD_Clean (rowDx s) = none) := by
  refine ⟨rfl, rfl, rfl, rfl, rfl, rfl, rfl, rfl, rfl, rfl, rfl, rfl, rfl, ?_⟩
  intro s hs
  have : (rowDx s).D_ICD_DESC = s := rfl
  unfold ICD_Clean
  rw [this, hs]

/-- Witness for the universally quantified part of the amended C2. -/
theorem C2_icd_mapping_silent_null_witness :
    ICD_Clean (rowDx ("HEMICRANIA CONTINUA")) = none :=
  C2_icd_mapping_silent_null.2.2.2.2.2.2.2.2.2.2.2.2.2
    ("HEMICRANIA CONTINUA") (by decide)

/-- `amb_painintensity`: the four pain-intensity item columns. -/
def amb_painintensity (r : Row) : List (Option ℚ) :=
  [r.CIRCLE_THE_ONE_NUMBER_THAT_DESCRIBES_YOUR_PAIN_RIGHT_NOW,
   r.AMB_NSR_R_PAIN_AT_ITS_WORST_IN_LAST_WEEK,
   r.AMB_NSR_R_PAIN_AT_ITS_LEAST_IN_LAST_WEEK,
   r.AMB_NSR_R_PAIN_AT_ITS_AVERAGE_IN_LAST_WEEK]

/-- `amb_interference`: the seven general-interference item columns. -/
def amb_interference (r : Row) : List (Option ℚ) :=
  [r.AMB_NSR_R_GENERAL_ACTIVITY,
   r.AMB_NSR_R_MOOD,
   r.AMB_NSR_R_NORMAL_WORK,
   r.AMB_NSR_R_RELATIONS_WITH_OTHER_PEOPLE,
   r.AMB_NSR_R_SLEEP,
   r.AMB_NSR_R_ENJOYMENT_OF_LIFE,
   r.ABM_NSR_R_WALKING_ABILITY]

/-- `amb_specific`: the seven face-specific-interference item columns. -/
def amb_specific (r : Row) : List (Option ℚ) :=
  [r.AMB_NSR_R_EATING_A_MEAL,
   r.AMB_NSR_R_TOUCHING_YOUR_FACE,
   r.AMB_NSR_R_BRUSHING_OR_FLOSSING_YOUR_TEETH,
   r.AMB_NSR_R_SMILING_OR_LAUGHING,
   r.AMB_NSR_R_TALKING,
   r.AMB_NSR_R_OPENING_YOUR_MOUTH_WIDELY,
   r.AMB_NSR_R_EATING_HARD_FOODS_LIKE_APPLES]

/-- `amb_any = amb_painintensity + amb_interference + amb_specific +
['AMB_NSR_R_BRIEF_PAIN_INVENTORY_FACIAL_SCORE']`: the required-field list
used by the cohort filter. -/
def amb_any (r : Row) : List (Option ℚ) :=
  amb_painintensity r ++ amb_interference r ++ amb_specific r ++
    [r.AMB_NSR_R_BRIEF_PAIN_INVENTORY_FACIAL_SCORE]

/-- A row is complete for a required-field list when none of the required
cells is null (`~ amb_df.isnull().any(axis=1)` for that row). -/
def rowComplete (req : Row → List (Option ℚ)) (r : Row) : Bool :=
  (req r).all Option.isSome

/-- `amb_df[amb_df.isnull().any(axis=1)].index` relative to a running
row label `i`: the ascending labels of the rows that have a null in some
required field. -/
def missingIdxFrom (req : Row → List (Option ℚ)) (i : ℕ) : List Row → List ℕ
  | [] => []
  | r :: rs =>
      if rowComplete req r then missingIdxFrom req (i + 1) rs
      else i :: missingIdxFrom req (i + 1) rs

/-- `df.drop(idxs)` relative to a running row label `i`: keep the rows
whose label is not in `idxs`. -/
def dropIdxFrom (idxs : List ℕ) (i : ℕ) : List Row → List Row
  | [] => []
  | r :: rs =>
      if i ∈ idxs then dropIdxFrom idxs (i + 1) rs
      else r :: dropIdxFrom idxs (i + 1) rs

/-- The cohort filter exactly as the notebook composes it: flag the rows
with a missing required field, then drop those row labels. -/
def cohortOn (req : Row → List (Option ℚ)) (recs : List Row) : List Row :=
  dropIdxFrom (missingIdxFrom req 0 recs) 0 recs

/-- `amb_df_missing`: the flagged row labels for the BPI-Facial columns. -/
def amb_df_missing (recs : List Row) : List ℕ :=
  missingIdxFrom amb_any 0 recs

/-- The analysis cohort: `df.drop(amb_df_missing)` (the rows of `amb_df`
and of `ml_df`). -/
def cohortRows (recs : List Row) : List Row :=
  cohortOn amb_any recs

lemma missingIdxFrom_cons (req : Row → List (Option ℚ)) (i : ℕ) (r : Row) (rs : List Row) :
    missingIdxFrom req i (r :: rs) =
      if rowComplete req r then missingIdxFrom req (i + 1) rs
      else i :: missingIdxFrom req (i + 1) rs := rfl

lemma dropIdxFrom_cons (idxs : List ℕ) (i : ℕ) (r : Row) (rs : List Row) :
    dropIdxFrom idxs i (r :: rs) =
      if i ∈ idxs then dropIdxFrom idxs (i + 1) rs
      else r :: dropIdxFrom idxs (i + 1) rs := rfl

lemma mem_missingIdxFrom_ge (req : Row → List (Option ℚ)) :
    ∀ (l : List Row) (i x : ℕ), x ∈ missingIdxFrom req i l → i ≤ x := by
  intro l
  induction l with
  | nil => intro i x h; simp [missingIdxFrom] at h
  | cons r rs ih =>
      intro i x h
      unfold missingIdxFrom at h
      by_cases hc : rowComplete req r
      · rw [if_pos hc] at h
        exact Nat.le_of_succ_le (ih (i + 1) x h)
      · rw [if_neg hc] at h
        rcases List.mem_cons.mp h with h | h
        · omega
        · exact Nat.le_of_succ_le (ih (i + 1) x h)

lemma dropIdxFrom_cons_lt (idxs : List ℕ) (j : ℕ) :
    ∀ (l : List Row) (i : ℕ), j < i →
      dropIdxFrom (j :: idxs) i l = dropIdxFrom idxs i l := by
  intro l
  induction l with
  | nil => intro i _; rfl
  | cons r rs ih =>
      intro i hji
      have hne : i ≠ j := by omega
      rw [dropIdxFrom_cons, dropIdxFrom_cons]
      by_cases h : i ∈ idxs
      · rw [if_pos (List.mem_cons_of_mem j h), if_pos h]
        exact ih (i + 1) (by omega)
      · have h' : i ∉ j :: idxs := by
          simp [List.mem_cons, hne, h]
        rw [if_neg h', if_neg h, ih (i + 1) (by omega)]

/-- Flag-then-drop equals complete-case filtering, at any starting row
label. -/
lemma drop_missing_eq_filter (req : Row → List (Option ℚ)) :
    ∀ (l : List Row) (i : ℕ),
      dropIdxFrom (missingIdxFrom req i l) i l = l.filter (rowComplete req) := by
  intro l
  induction l with
  | nil => intro i; rfl
  | cons r rs ih =>
      intro i
      by_cases hc : rowComplete req r
      · have hni : i ∉ missingIdxFrom req (i + 1) rs := by
          intro h
          have := mem_missingIdxFrom_ge req rs (i + 1) i h
          omega
        rw [missingIdxFrom_cons, if_pos hc, dropIdxFrom_cons, if_neg hni,
          ih (i + 1), List.filter_cons, if_pos hc]
      · rw [missingIdxFrom_cons, if_neg hc, dropIdxFrom_cons,
          if_pos (List.mem_cons_self i _),
          dropIdxFrom_cons_lt _ i rs (i + 1) (by omega), ih (i + 1),
          List.filter_cons, if_neg hc]

lemma filter_idem {α : Type} (p : α → Bool) (l : List α) :
    (l.filter p).filter p = l.filter p := by
  induction l with
  | nil => rfl
  | cons a as ih =>
      by_cases h : p a <;> simp [List.filter_cons, h, ih]

/-- C7.  The cohort filter is idempotent: for every record collection and
every required-field list, flagging-and-dropping the already filtered
output with the same required fields returns it unchanged (same rows,
same order). -/
theorem C7_cohort_filter_idempotent (req : Row → List (Option ℚ)) (recs : List Row) :
    cohortOn req (cohortOn req recs) = cohortOn req recs := by
  unfold cohortOn
  rw [drop_missing_eq_filter, drop_missing_eq_filter, filter_idem]

/-- pandas row-wise `.sum(axis=1, skipna=True)`: sum of the present
values (0 when all are null). -/
def sumSkipna (l : List (Option ℚ)) : ℚ :=
  (l.filterMap id).sum

/-- pandas row-wise `.mean(axis=1, skipna=True)`: mean of the present
values, null when none is present. -/
def meanSkipna (l : List (Option ℚ)) : Option ℚ :=
  let vs := l.filterMap id
  if vs.length = 0 then none else some (vs.sum / (vs.length : ℚ))

/-- `amb_painintensity_df = amb_df[amb_painintensity].mean(axis=1, skipna=True)`,
per row. -/
def amb_painintensity_mean (r : Row) : Option ℚ :=
  meanSkipna (amb_painintensity r)

/-- `amb_interference_df = amb_df[amb_interference].mean(axis=1, skipna=True)`,
per row. -/
def amb_interference_mean (r : Row) : Option ℚ :=
  meanSkipna (amb_interference r)

/-- `amb_specific_df = amb_df[amb_specific].mean(axis=1, skipna=True)`,
per row. -/
def amb_specific_mean (r : Row) : Option ℚ :=
  meanSkipna (amb_specific r)

/-- `ml_df['Pain_Intensity'] = ml_df[amb_painintensity].sum(axis=1, skipna=True)`:
the classification/clustering covariate is the item SUM. -/
def Pain_Intensity (r : Row) : ℚ :=
  sumSkipna (amb_painintensity r)

/-- `ml_df['Interference_General'] = ml_df[amb_interference].sum(axis=1, skipna=True)`. -/
def Interference_General (r : Row) : ℚ :=
  sumSkipna (amb_interference r)

/-- `ml_df['Interference_Face'] = ml_df[amb_specific].sum(axis=1, skipna=True)`. -/
def Interference_Face (r : Row) : ℚ :=
  sumSkipna (amb_specific r)

lemma all_isSome_eq_map_some :
    ∀ l : List (Option ℚ), l.all Option.isSome = true →
      ∃ vs : List ℚ, l = vs.map some := by
  intro l
  induction l with
  | nil => intro _; exact ⟨[], rfl⟩
  | cons o os ih =>
      intro h
      rw [List.all_cons, Bool.and_eq_true] at h
      rcases Option.isSome_iff_exists.mp h.1 with ⟨v, hv⟩
      rcases ih h.2 with ⟨vs, hvs⟩
      exact ⟨v :: vs, by rw [hv, hvs]; rfl⟩

lemma filterMap_id_map_some (vs : List ℚ) :
    (vs.map some).filterMap id = vs := by
  induction vs with
  | nil => rfl
  | cons v vs ih => simp [List.filterMap_cons, ih]

/-- On a complete row a domain's mean is present and the domain's sum is
the item count times that mean. -/
lemma skipna_complete (l : List (Option ℚ)) (h : l.all Option.isSome = true)
    (hne : l.length ≠ 0) :
    ∃ m, meanSkipna l = some m ∧ sumSkipna l = (l.length : ℚ) * m := by
  rcases all_isSome_eq_map_some l h with ⟨vs, rfl⟩
  have hfm : (vs.map some).filterMap id = vs := filterMap_id_map_some vs
  have hlen : (vs.map some).length = vs.length := List.length_map _ _
  have hvs : vs.length ≠ 0 := by rwa [hlen] at hne
  refine ⟨vs.sum / (vs.length : ℚ), ?_, ?_⟩
  · unfold meanSkipna
    simp only [hfm]
    rw [if_neg hvs]
  · unfold sumSkipna
    rw [hfm, hlen]
    have : (vs.length : ℚ) ≠ 0 := Nat.cast_ne_zero.mpr hvs
    field_simp

/-- A complete row whose four pain-intensity items are all 2. -/
def rowPain2 : Row :=
  { baseRow with
      CIRCLE_THE_ONE_NUMBER_THAT_DESCRIBES_YOUR_PAIN_RIGHT_NOW := some 2
      AMB_NSR_R_PAIN_AT_ITS_WORST_IN_LAST_WEEK := some 2
      AMB_NSR_R_PAIN_AT_ITS_LEAST_IN_LAST_WEEK := some 2
      AMB_NSR_R_PAIN_AT_ITS_AVERAGE_IN_LAST_WEEK := some 2 }

/-- Counterexample to C5 as stated: on the complete row whose four
pain-intensity items are all 2, the domain-aggregate mean score is 2 but
the covariate column `Pain_Intensity` used by the classification and
clustering pipelines is 8 (the item sum), not the mean score. -/
theorem C5_ml_covariate_not_mean_counterexample :
    rowComplete amb_any rowPain2 = true ∧
    amb_painintensity_mean rowPain2 = some 2 ∧
    Pain_Intensity rowPain2 = 8 ∧
    Pain_Intensity rowPain2 ≠ 2 := by
  refine ⟨by decide, ?_, ?_, ?_⟩ <;>
    norm_num [amb_painintensity_mean, meanSkipna, Pain_Intensity, sumSkipna,
      amb_painintensity, rowPain2, baseRow, List.filterMap_cons]

/-- C5 amended.  For every complete (cohort) row each domain-aggregate
mean score is non-null and equals the arithmetic mean of the items; the
continuous covariates the classification and clustering pipelines use
are the per-domain item SUMS, i.e. item count times the mean (4x for
pain intensity, 7x for each interference domain), not the means
themselves. -/
theorem C5_domain_scores_sums (r : Row) (h : rowComplete amb_any r = true) :
    (∃ m, amb_painintensity_mean r = some m ∧ Pain_Intensity r = 4 * m) ∧
    (∃ m, amb_interference_mean r = some m ∧ Interference_General r = 7 * m) ∧
    (∃ m, amb_specific_mean r = some m ∧ Interference_Face r = 7 * m) := by
  unfold rowComplete amb_any at h
  simp only [List.all_append, Bool.and_eq_true] at h
  obtain ⟨⟨⟨hp, hi⟩, hs⟩, _⟩ := h
  refine ⟨?_, ?_, ?_⟩
  · rcases skipna_complete (amb_painintensity r) hp (by simp [amb_painintensity]) with ⟨m, hm, hsum⟩
    exact ⟨m, hm, by simpa [amb_painintensity] using hsum⟩
  · rcases skipna_complete (amb_interference r) hi (by simp [amb_interference]) with ⟨m, hm, hsum⟩
    exact ⟨m, hm, by simpa [amb_interference] using hsum⟩
  · rcases skipna_complete (amb_specific r) hs (by simp [amb_specific]) with ⟨m, hm, hsum⟩
    exact ⟨m, hm, by simpa [amb_specific] using hsum⟩

/-- Witness for the amended C5 at a concrete complete row. -/
theorem C5_domain_scores_sums_witness :
    ∃ m, amb_painintensity_mean rowPain2 = some m ∧ Pain_Intensity rowPain2 = 4 * m :=
  (C5_domain_scores_sums rowPain2 (by decide)).1

/-- `df.shape[0]` as printed in the descriptives summary: computed over
the full table, not the filtered cohort. -/
def n_entries (recs : List Row) : ℕ :=
  recs.length

/-- `n_female = len(df[df['D_GENDER_DESC'] == 'Female'])`: computed over
the full table, not the filtered cohort. -/
def n_female (recs : List Row) : ℕ :=
  (recs.filter (fun r => r.D_GENDER_DESC == ("Female"))).length

/-- `ml_df = df.copy(); ml_df = ml_df.drop(amb_df_missing)`: the row set
the classification and clustering pipelines are fit on. -/
def ml_rows (recs : List Row) : List Row :=
  dropIdxFrom (amb_df_missing recs) 0 recs

/-- `is_sui = df.copy().drop(amb_df_missing)['CSRSS_Either'].values`. -/
def is_sui (recs : List Row) : List ℕ :=
  (cohortRows recs).map CSRSS_Either

/-- The notebook's label-aligned masking pattern
`domain_series[is_sui == v].values` (e.g. `amb_painintensity_df[is_sui == 1]`):
the per-row domain values are paired with `is_sui` label-by-label, the
rows where the flag equals `v` are kept, and nulls are dropped
(`dropna`; on the cohort every domain mean is present, so label-wise
`dropna` and masking commute). -/
def bpi_group (recs : List Row) (f : Row → Option ℚ) (v : ℕ) : List ℚ :=
  (((((cohortRows recs).map f).zip (is_sui recs)).filter
      (fun q => q.2 == v)).map Prod.fst).filterMap id

/-- `painintensity_sui = amb_painintensity_df[is_sui == 1].values`. -/
def painintensity_sui (recs : List Row) : List ℚ :=
  bpi_group recs amb_painintensity_mean 1

/-- `painintensity_notsui = amb_painintensity_df[is_sui == 0].values`. -/
def painintensity_notsui (recs : List Row) : List ℚ :=
  bpi_group recs amb_painintensity_mean 0

/-- `interference_sui = amb_interference_df[is_sui == 1].values`. -/
def interference_sui (recs : List Row) : List ℚ :=
  bpi_group recs amb_interference_mean 1

/-- `interference_notsui = amb_interference_df[is_sui == 0].values`. -/
def interference_notsui (recs : List Row) : List ℚ :=
  bpi_group recs amb_interference_mean 0

/-- `specific_sui = amb_specific_df[is_sui == 1].values`. -/
def specific_sui (recs : List Row) : List ℚ :=
  bpi_group recs amb_specific_mean 1

/-- `specific_notsui = amb_specific_df[is_sui == 0].values`. -/
def specific_notsui (recs : List Row) : List ℚ :=
  bpi_group recs amb_specific_mean 0

lemma mask_map_eq {α : Type} (f : α → Option ℚ) (g : α → ℕ) (v : ℕ) :
    ∀ l : List α,
      ((((l.map f).zip (l.map g)).filter (fun q => q.2 == v)).map Prod.fst).filterMap id
        = (l.filter (fun a => g a == v)).filterMap f := by
  intro l
  induction l with
  | nil => rfl
  | cons a l ih =>
      simp only [List.map_cons, List.zip_cons_cons, List.filter_cons]
      by_cases h : g a == v
      · simp only [h, if_pos rfl, List.map_cons, List.filterMap_cons]
        cases hf : f a <;> simp [hf, ih]
      · simp only [h]
        simp [ih]

/-- C3 amended.  The Levene/Welch subgroup inputs and the rows the
classification and clustering pipelines are fit on are exactly the
complete-case filtered cohort; but the population counts and the female
count (and likewise the frequency tables, screening-flag proportions and
chi-square contingency inputs, which the notebook computes from `df`)
are computed over ALL records, including the incomplete ones, so sample
sizes are not consistent across the reported results. -/
theorem C3_cohort_usage_split (recs : List Row) :
    cohortRows recs = recs.filter (rowComplete amb_any) ∧
    ml_rows recs = recs.filter (rowComplete amb_any) ∧
    (∀ (f : Row → Option ℚ) (v : ℕ),
      bpi_group recs f v =
        ((recs.filter (rowComplete amb_any)).filter
          (fun r => CSRSS_Either r == v)).filterMap f) ∧
    n_entries recs = recs.length ∧
    n_female recs = (recs.filter (fun r => r.D_GENDER_DESC == ("Female"))).length := by
  have hc : cohortRows recs = recs.filter (rowComplete amb_any) :=
    drop_missing_eq_filter amb_any recs 0
  refine ⟨hc, hc, ?_, rfl, rfl⟩
  intro f v
  unfold bpi_group is_sui
  rw [hc]
  exact mask_map_eq f CSRSS_Either v _

/-- A female row missing one pain-intensity item. -/
def rowFemMiss : Row :=
  { baseRow with CIRCLE_THE_ONE_NUMBER_THAT_DESCRIBES_YOUR_PAIN_RIGHT_NOW := none }

/-- One complete and one incomplete female record. -/
def recsC3 : List Row :=
  [baseRow, rowFemMiss]

/-- Witness for the amended C3 at a concrete record collection. -/
theorem C3_cohort_usage_split_witness :
    cohortRows recsC3 = recsC3.filter (rowComplete amb_any) :=
  (C3_cohort_usage_split recsC3).1

/-- Counterexample to C3 as stated: with one complete and one incomplete
female record, the notebook's female count (computed over the full
table) is 2, while the count over the filtered cohort is 1 — the female
count (and the other full-table descriptive statistics) are not
computed over the cohort. -/
theorem C3_full_table_stats_counterexample :
    n_female recsC3 = 2 ∧
    ((cohortRows recsC3).filter (fun r => r.D_GENDER_DESC == ("Female"))).length = 1 ∧
    n_female recsC3 ≠
      ((cohortRows recsC3).filter (fun r => r.D_GENDER_DESC == ("Female"))).length :=
  ⟨by decide, by decide, by decide⟩

/-- Witness for C7 at a concrete record collection containing an
incomplete row. -/
theorem C7_cohort_filter_idempotent_witness :
    cohortOn amb_any (cohortOn amb_any recsC3) = cohortOn amb_any recsC3 :=
  C7_cohort_filter_idempotent amb_any recsC3

/-- Result of a scipy statistics call: either a value or a raised
exception (the notebook installs no handler, so `raised` aborts the
run). -/
inductive TestResult where
  | ok (v : ℚ)
  | raised (msg : String)
deriving DecidableEq

/-- Lexicographic comparison of character lists by code point (the
ordering pandas uses for ASCII group keys). -/
def charListLt : List Char → List Char → Bool
  | [], [] => false
  | [], _ :: _ => true
  | _ :: _, [] => false
  | a :: as, b :: bs =>
      if a.toNat < b.toNat then true
      else if b.toNat < a.toNat then false
      else charListLt as bs

def insertStr (s : String) : List String → List String
  | [] => [s]
  | t :: ts => if charListLt s.data t.data then s :: t :: ts else t :: insertStr s ts

/-- Ascending key sort, modelling `groupby(sort=True)` group ordering. -/
def sortStrings : List String → List String
  | [] => []
  | s :: ss => insertStr s (sortStrings ss)

def insertCountDesc (x : ℕ × ℕ) : List (ℕ × ℕ) → List (ℕ × ℕ)
  | [] => [x]
  | y :: ys => if y.2 < x.2 then x :: y :: ys else y :: insertCountDesc x ys

def sortCountDesc : List (ℕ × ℕ) → List (ℕ × ℕ)
  | [] => []
  | x :: xs => insertCountDesc x (sortCountDesc xs)

/-- pandas `value_counts()` of a series of naturals: pairs
(value, count) over the distinct values, sorted by count DESCENDING —
not by value.  (Tie order is irrelevant for the concrete inputs used
below, which have no tied counts.) -/
def value_counts (vals : List ℕ) : List (ℕ × ℕ) :=
  sortCountDesc (vals.dedup.map (fun v => (v, vals.count v)))

/-- `df.groupby('D_GENDER_DESC')['CSRSS_Either'].value_counts().values`:
for each gender key in ascending order, the within-group counts of
`CSRSS_Either`, each group's counts sorted by FREQUENCY descending (the
pandas default), flattened. -/
def csrss_counts_gender (recs : List Row) : List ℕ :=
  (sortStrings ((recs.map Row.D_GENDER_DESC).dedup)).flatMap
    (fun g => (value_counts
      ((recs.filter (fun r => r.D_GENDER_DESC == g)).map CSRSS_Either)).map Prod.snd)

def sgn (x : ℚ) : ℚ :=
  if 0 < x then 1 else if x < 0 then -1 else 0

/-- `.reshape(2, 2)` followed by `scipy.stats.chi2_contingency` (default
`correction=True`, i.e. the Yates adjustment
`observed + min(0.5, |expected - observed|) * sign(expected - observed)`
for a 1-dof table): raises if the flat array does not hold exactly 4
cells (`cannot reshape`) or if an expected frequency is zero; otherwise
returns the chi-square statistic (dof is 1 and the p-value is a fixed
monotone transform of the statistic). -/
def chi2_from_cells (cells : List ℕ) : TestResult :=
  match cells with
  | [o11, o12, o21, o22] =>
      let a : ℚ := o11
      let b : ℚ := o12
      let c : ℚ := o21
      let d : ℚ := o22
      let N := a + b + c + d
      if N = 0 then .raised ("zero-size table") else
      let e11 := (a + b) * (a + c) / N
      let e12 := (a + b) * (b + d) / N
      let e21 := (c + d) * (a + c) / N
      let e22 := (c + d) * (b + d) / N
      if e11 = 0 ∨ e12 = 0 ∨ e21 = 0 ∨ e22 = 0 then
        .raised ("The internally computed table of expected frequencies has a zero element")
      else
        let adj : ℚ → ℚ → ℚ := fun o e => o + min (1/2) |e - o| * sgn (e - o)
        .ok ((adj a e11 - e11)^2 / e11 + (adj b e12 - e12)^2 / e12 +
          (adj c e21 - e21)^2 / e21 + (adj d e22 - e22)^2 / e22)
  | _ => .raised ("cannot reshape array")

/-- The chi-square operation exactly as the notebook composes it for
{sex x either_flag}. -/
def chi2_gender_pipeline (recs : List Row) : TestResult :=
  chi2_from_cells (csrss_counts_gender recs)

/-- The TRUE 2x2 contingency table of the claim: cell (g, e) is the
number of rows with gender g and either_flag e (groups ascending,
either values 0 then 1), flattened row-major. -/
def gender_either_table (recs : List Row) : List ℕ :=
  (sortStrings ((recs.map Row.D_GENDER_DESC).dedup)).flatMap
    (fun g => [0, 1].map (fun e =>
      (recs.filter
        (fun r => r.D_GENDER_DESC == g && CSRSS_Either r == e)).length))

/-- A row with a given gender whose derived either_flag is `e`. -/
def rowGE (g : String) (e : ℕ) : Row :=
  { baseRow with
      D_GENDER_DESC := g
      IP_R_NEU_CSSRS_SUICIDAL_THOUGHTS :=
        if e = 1 then some ("Yes") else some ("No") }

/-- Eight records in which females are mostly either_flag = 0 and males
mostly either_flag = 1, so the two groups have different majority
values. -/
def recsC4 : List Row :=
  [rowGE ("Female") 0, rowGE ("Female") 0, rowGE ("Female") 0, rowGE ("Female") 1,
   rowGE ("Male") 0, rowGE ("Male") 1, rowGE ("Male") 1, rowGE ("Male") 1]

/-- C4 failing input.  `value_counts()` sorts each group's counts by
frequency, so on `recsC4` the notebook reshapes `[3,1,3,1]` — but the
true contingency table is `[[3,1],[1,3]]`.  The reported statistic is
the chi-square of the scrambled matrix (0), not of the true table
(1/2): the code does NOT compute the independence test of the true
table when the two groups have different majority either_flag values. -/
theorem C4_chi2_frequency_sorted_bug :
    csrss_counts_gender recsC4 = [3, 1, 3, 1] ∧
    gender_either_table recsC4 = [3, 1, 1, 3] ∧
    chi2_gender_pipeline recsC4 = TestResult.ok 0 ∧
    chi2_from_cells (gender_either_table recsC4) = TestResult.ok (1/2) ∧
    chi2_gender_pipeline recsC4 ≠ chi2_from_cells (gender_either_table recsC4) := by
  have h1 : csrss_counts_gender recsC4 = [3, 1, 3, 1] := by decide
  have h2 : gender_either_table recsC4 = [3, 1, 1, 3] := by decide
  have h3 : chi2_from_cells [3, 1, 3, 1] = TestResult.ok 0 := by
    norm_num [chi2_from_cells, sgn]
  have h4 : chi2_from_cells [3, 1, 1, 3] = TestResult.ok (1/2) := by
    norm_num [chi2_from_cells, sgn]
  refine ⟨h1, h2, ?_, ?_, ?_⟩
  · unfold chi2_gender_pipeline
    rw [h1, h3]
  · rw [h2, h4]
  · unfold chi2_gender_pipeline
    rw [h1, h2, h3, h4]
    intro hcontra
    rw [TestResult.ok.injEq] at hcontra
    norm_num at hcontra

/-- numpy mean of a sample. -/
def listMean (l : List ℚ) : ℚ :=
  l.sum / (l.length : ℚ)

/-- Sample variance with one delta degree of freedom, as scipy's t test
uses internally. -/
def sampleVar (l : List ℚ) : ℚ :=
  (l.map (fun x => (x - listMean l)^2)).sum / ((l.length - 1 : ℕ) : ℚ)

/-- `scipy.stats.ttest_ind(a, b, equal_var=...)`.  A sample of fewer
than 2 observations makes the internal `ddof=1` variance NaN, so the
call returns a NaN result without raising (modelled `none`); a zero
variance denominator is likewise NaN.  Otherwise returns the SQUARED t
statistic paired with the degrees of freedom the test computes (squared
because the t value itself involves a square root, which is not
rational; squaring changes neither definedness nor the dof).  With
`equal_var=True` the pooled formula and dof `n1+n2-2` are used; with
`equal_var=False` (the notebook's call) the Welch formula and Welch's
effective dof are used. -/
def ttest_ind (a b : List ℚ) (equal_var : Bool) : Option (ℚ × ℚ) :=
  if a.length < 2 ∨ b.length < 2 then none
  else if equal_var then
    let df : ℚ := ((a.length + b.length - 2 : ℕ) : ℚ)
    let sp := (((a.length - 1 : ℕ) : ℚ) * sampleVar a +
      ((b.length - 1 : ℕ) : ℚ) * sampleVar b) / df
    let denom := sp * (1 / (a.length : ℚ) + 1 / (b.length : ℚ))
    if denom = 0 then none
    else some ((listMean a - listMean b)^2 / denom, df)
  else
    let vn1 := sampleVar a / (a.length : ℚ)
    let vn2 := sampleVar b / (b.length : ℚ)
    if vn1 + vn2 = 0 then none
    else some ((listMean a - listMean b)^2 / (vn1 + vn2),
      (vn1 + vn2)^2 / (vn1^2 / ((a.length - 1 : ℕ) : ℚ) +
        vn2^2 / ((b.length - 1 : ℕ) : ℚ)))

/-- Welch's effective degrees of freedom for two samples, written from
the spec's description of the quantity the report should carry. -/
def welch_dof (a b : List ℚ) : ℚ :=
  (sampleVar a / (a.length : ℚ) + sampleVar b / (b.length : ℚ))^2 /
    ((sampleVar a / (a.length : ℚ))^2 / ((a.length - 1 : ℕ) : ℚ) +
      (sampleVar b / (b.length : ℚ))^2 / ((b.length - 1 : ℕ) : ℚ))

/-- The degrees of freedom the notebook PRINTS next to each t statistic:
`len(x) + len(y) - 2` (the pooled dof), from the report format strings. -/
def printed_dof (a b : List ℚ) : ℚ :=
  ((a.length + b.length - 2 : ℕ) : ℚ)

def insertQ (x : ℚ) : List ℚ → List ℚ
  | [] => [x]
  | y :: ys => if x ≤ y then x :: y :: ys else y :: insertQ x ys

def sortQ : List ℚ → List ℚ
  | [] => []
  | x :: xs => insertQ x (sortQ xs)

/-- numpy median: middle order statistic, or the average of the two
middle ones; NaN (`none`) on an empty sample. -/
def median (l : List ℚ) : Option ℚ :=
  let s := sortQ l
  let n := s.length
  if n = 0 then none
  else if n % 2 = 1 then s.get? (n / 2)
  else match s.get? (n / 2 - 1), s.get? (n / 2) with
       | some x, some y => some ((x + y) / 2)
       | _, _ => none

/-- `scipy.stats.levene(a, b)` with the default `center='median'` and
`k = 2` groups: the W statistic over the absolute deviations from each
group's median.  A sample with fewer than two observations makes scipy
(1.13 and later, the version a mid-2025 run uses) emit
`SmallSampleWarning` and return a NaN result (`none`) — a warning, not
an exception; a zero denominator is likewise NaN. -/
def levene2 (a b : List ℚ) : Option ℚ :=
  if a.length < 2 ∨ b.length < 2 then none
  else
    match median a, median b with
    | some ma, some mb =>
        let za := a.map (fun x => |x - ma|)
        let zb := b.map (fun x => |x - mb|)
        let zbarA := listMean za
        let zbarB := listMean zb
        let N : ℚ := ((a.length + b.length : ℕ) : ℚ)
        let zbar := (za.sum + zb.sum) / N
        let num := (N - 2) * ((a.length : ℚ) * (zbarA - zbar)^2 +
          (b.length : ℚ) * (zbarB - zbar)^2)
        let den := (za.map (fun z => (z - zbarA)^2)).sum +
          (zb.map (fun z => (z - zbarB)^2)).sum
        if den = 0 then none else some (num / den)
    | _, _ => none

def tsampleA : List ℚ :=
  [0, 6, 12]

def tsampleB : List ℚ :=
  [1, 2, 3]

/-- Counterexample to C6 as stated: for the subgroups `[0,6,12]` and
`[1,2,3]` Welch's effective dof is 2738/1297 (about 2.11), while the
notebook prints `len+len-2 = 4` — the dof reported alongside the t
statistic and p-value is not Welch's. -/
theorem C6_reported_dof_not_welch_counterexample :
    welch_dof tsampleA tsampleB = 2738 / 1297 ∧
    printed_dof tsampleA tsampleB = 4 ∧
    welch_dof tsampleA tsampleB ≠ printed_dof tsampleA tsampleB := by
  norm_num [welch_dof, printed_dof, sampleVar, listMean, tsampleA, tsampleB,
    List.map_cons, List.map_nil, List.sum_cons, List.sum_nil]

/-- C6 amended.  The two-sample test IS Welch's: the notebook calls
`ttest_ind` with `equal_var=False`, whose statistic uses the unpooled
variance denominator and whose p-value uses Welch's effective dof; but
the degrees of freedom PRINTED alongside the t statistic and the
p-value are `n1 + n2 - 2` (the pooled dof), not Welch's effective dof. -/
theorem C6_welch_test_pooled_dof_reported (a b : List ℚ)
    (ha : 2 ≤ a.length) (hb : 2 ≤ b.length)
    (hv : sampleVar a / (a.length : ℚ) + sampleVar b / (b.length : ℚ) ≠ 0) :
    ttest_ind a b false =
      some ((listMean a - listMean b)^2 /
        (sampleVar a / (a.length : ℚ) + sampleVar b / (b.length : ℚ)),
        welch_dof a b) ∧
    printed_dof a b = ((a.length : ℚ) + (b.length : ℚ)) - 2 := by
  constructor
  · unfold ttest_ind
    rw [if_neg (by omega)]
    simp only [Bool.false_eq_true, if_false]
    rw [if_neg hv]
    unfold welch_dof
    ring_nf
  · unfold printed_dof
    rw [Nat.cast_sub (by omega), Nat.cast_add]
    norm_num

/-- Witness for the amended C6 at the concrete subgroups. -/
theorem C6_welch_test_pooled_dof_reported_witness :
    ttest_ind tsampleA tsampleB false =
      some ((listMean tsampleA - listMean tsampleB)^2 /
        (sampleVar tsampleA / (tsampleA.length : ℚ) +
          sampleVar tsampleB / (tsampleB.length : ℚ)),
        welch_dof tsampleA tsampleB) :=
  (C6_welch_test_pooled_dof_reported tsampleA tsampleB (by decide) (by decide)
    (by norm_num [sampleVar, listMean, tsampleA, tsampleB,
      List.map_cons, List.map_nil, List.sum_cons, List.sum_nil])).1

/-- Four records in which the Male subgroup has a single observation:
with only three grouped cells, `.reshape(2, 2)` raises `ValueError`. -/
def recsC8 : List Row :=
  [rowGE ("Female") 0, rowGE ("Female") 0, rowGE ("Female") 1, rowGE ("Male") 1]

/-- Counterexample to C8 as stated: with a compared subgroup (Male) of
fewer than 2 observations, the chi-square operation raises (aborting
the run) instead of returning a non-fatal "not computable" result. -/
theorem C8_chi2_raises_counterexample :
    (recsC8.filter (fun r => r.D_GENDER_DESC == ("Male"))).length = 1 ∧
    chi2_gender_pipeline recsC8 = TestResult.raised ("cannot reshape array") :=
  ⟨by decide, by decide⟩

/-- C8 amended.  The Welch t-test and Levene's test degrade
non-fatally: any compared subgroup of fewer than 2 observations yields
a NaN ("not computable") result, not an exception.  The chi-square
operation, however, RAISES when a compared subgroup has fewer than 2
observations, because the grouped value counts then hold fewer than
four cells and the 2x2 reshape fails — the notebook installs no
handler, so the run aborts. -/
theorem C8_graceful_and_raising :
    (∀ a b : List ℚ, a.length < 2 ∨ b.length < 2 → ttest_ind a b false = none) ∧
    (∀ a b : List ℚ, a.length < 2 ∨ b.length < 2 → levene2 a b = none) ∧
    chi2_gender_pipeline recsC8 = TestResult.raised ("cannot reshape array") := by
  refine ⟨?_, ?_, by decide⟩
  · intro a b h
    unfold ttest_ind
    rw [if_pos h]
  · intro a b h
    unfold levene2
    rw [if_pos h]

/-- Witness for the universally quantified parts of the amended C8: a
t-test subgroup with fewer than two observations gives NaN, and so does
a singleton Levene subgroup — neither raises. -/
theorem C8_graceful_and_raising_witness :
    ttest_ind ([] : List ℚ) [1, 2] false = none ∧
    levene2 [(5 : ℚ)] [1, 2, 9] = none :=
  ⟨C8_graceful_and_raising.1 [] [1, 2] (by decide),
   C8_graceful_and_raising.2.1 [5] [1, 2, 9] (by decide)⟩

/-- `pipeline.predict(X_test)`: sklearn binary logistic regression
predicts class 1 exactly when the decision function is positive, i.e.
when the predicted probability of class 1 exceeds 0.5. -/
def y_pred_default (p : ℚ) : ℕ :=
  if 1/2 < p then 1 else 0

/-- `y_pred_alt = (y_proba >= threshold).astype(int)` with
`threshold = 0.3`. -/
def y_pred_alt (p : ℚ) : ℕ :=
  if 3/10 ≤ p then 1 else 0

/-- Number of positive predictions in a prediction vector. -/
def positives (preds : List ℕ) : ℕ :=
  preds.count 1

/-- C9.  Every test example predicted positive at the default 0.5
threshold is also predicted positive at the alternate 0.3 threshold, so
lowering the threshold never decreases the number of positive
predictions, whatever the predicted probabilities are. -/
theorem C9_threshold_monotone (probs : List ℚ) :
    (∀ p ∈ probs, y_pred_default p = 1 → y_pred_alt p = 1) ∧
    positives (probs.map y_pred_default) ≤ positives (probs.map y_pred_alt) := by
  constructor
  · intro p _ hp
    unfold y_pred_default at hp
    unfold y_pred_alt
    by_cases h : 1/2 < p
    · rw [if_pos (by linarith)]
    · rw [if_neg h] at hp
      exact absurd hp (by norm_num)
  · induction probs with
    | nil => exact le_refl _
    | cons p ps ih =>
        have hmono : y_pred_default p = 1 → y_pred_alt p = 1 := by
          intro hp
          unfold y_pred_default at hp
          unfold y_pred_alt
          by_cases h : 1/2 < p
          · rw [if_pos (by linarith)]
          · rw [if_neg h] at hp
            exact absurd hp (by norm_num)
        have hd1 : y_pred_default p = 1 ∨ y_pred_default p = 0 := by
          unfold y_pred_default
          by_cases h : 1/2 < p
          · rw [if_pos h]; exact Or.inl rfl
          · rw [if_neg h]; exact Or.inr rfl
        have ha1 : y_pred_alt p = 1 ∨ y_pred_alt p = 0 := by
          unfold y_pred_alt
          by_cases h : 3/10 ≤ p
          · rw [if_pos h]; exact Or.inl rfl
          · rw [if_neg h]; exact Or.inr rfl
        unfold positives at ih ⊢
        simp only [List.map_cons, List.count_cons]
        rcases hd1 with h | h
        · rw [h, hmono h]
          simp only [beq_self_eq_true, if_true]
          omega
        · rcases ha1 with h' | h' <;> rw [h, h'] <;> simp <;> omega

/-- Witness for C9 at a concrete probability vector. -/
theorem C9_threshold_monotone_witness :
    y_pred_alt (3/5) = 1 :=
  (C9_threshold_monotone [3/5]).1 (3/5) (List.mem_singleton.mpr rfl)
    (by norm_num [y_pred_default])

section Silhouette

variable {P : Type}

/-- Sum of distances from `p` to the points of a cluster. -/
def sumDist (dist : P → P → ℚ) (p : P) (c : List P) : ℚ :=
  (c.map (dist p)).sum

/-- Mean distance from `p` to a cluster. -/
def meanDistTo (dist : P → P → ℚ) (p : P) (c : List P) : ℚ :=
  sumDist dist p c / (c.length : ℚ)

def minList : List ℚ → ℚ
  | [] => 0
  | x :: xs => xs.foldl min x

/-- The members of cluster `c` among the labelled points. -/
def clusterOf (pl : List (P × ℕ)) (c : ℕ) : List P :=
  (pl.filter (fun q => q.2 == c)).map Prod.fst

/-- `sklearn.metrics.silhouette_samples` for one labelled point: 0 for a
point in a singleton cluster; otherwise `(b - a) / max a b` where `a` is
the mean distance to the other members of its own cluster (the sum over
the cluster divided by size minus one — the self-distance is 0 for a
metric) and `b` the smallest mean distance to another cluster.  In `ℚ`,
`x / 0 = 0`, which coincides with sklearn's zero-fill of a `0/0`
sample. -/
def silSample (dist : P → P → ℚ) (pl : List (P × ℕ)) (p : P) (c : ℕ) : ℚ :=
  let own := clusterOf pl c
  if own.length ≤ 1 then 0
  else
    let a := sumDist dist p own / ((own.length - 1 : ℕ) : ℚ)
    let others := ((pl.map Prod.snd).dedup.filter (fun d => d != c)).map
      (fun d => meanDistTo dist p (clusterOf pl d))
    let b := minList others
    (b - a) / max a b

/-- `silhouette_score(X, labels)`: the mean silhouette sample over all
points. -/
def silhouette_score (dist : P → P → ℚ) (pts : List P) (labels : List ℕ) : ℚ :=
  let pl := pts.zip labels
  (pl.map (fun q => silSample dist pl q.1 q.2)).sum / (pl.length : ℚ)

/-- `range(2, 11)`: the swept cluster counts. -/
def sweep_ks : List ℕ :=
  List.range' 2 9

/-- The notebook's model-selection sweep: for each k in `range(2, 11)`,
fit k-means and append the silhouette score of the fitted labelling.
`KMeans(n_clusters=k, random_state=0).fit` is abstracted as a labelling
function `fit k` of the points (its Lloyd iteration is floating-point
and stateful); the sweep structure and scoring are embedded exactly. -/
def silhouette_scores (dist : P → P → ℚ) (pts : List P) (fit : ℕ → List ℕ) : List ℚ :=
  sweep_ks.map (fun k => silhouette_score dist pts (fit k))

lemma foldl_min_nonneg :
    ∀ (xs : List ℚ) (acc : ℚ), 0 ≤ acc → (∀ x ∈ xs, 0 ≤ x) →
      0 ≤ xs.foldl min acc := by
  intro xs
  induction xs with
  | nil => intro acc h _; exact h
  | cons y ys ih =>
      intro acc hacc hall
      exact ih (min acc y)
        (le_min hacc (hall y (List.mem_cons_self y ys)))
        (fun x hx => hall x (List.mem_cons_of_mem y hx))

lemma minList_nonneg (l : List ℚ) (h : ∀ x ∈ l, 0 ≤ x) : 0 ≤ minList l := by
  cases l with
  | nil => exact le_refl 0
  | cons x xs =>
      exact foldl_min_nonneg xs x (h x (List.mem_cons_self x xs))
        (fun y hy => h y (List.mem_cons_of_mem x hy))

lemma sumDist_nonneg (dist : P → P → ℚ) (hd : ∀ x y, 0 ≤ dist x y)
    (p : P) (c : List P) : 0 ≤ sumDist dist p c := by
  apply List.sum_nonneg
  intro x hx
  rcases List.mem_map.mp hx with ⟨q, _, rfl⟩
  exact hd p q

lemma meanDistTo_nonneg (dist : P → P → ℚ) (hd : ∀ x y, 0 ≤ dist x y)
    (p : P) (c : List P) : 0 ≤ meanDistTo dist p c :=
  div_nonneg (sumDist_nonneg dist hd p c) (Nat.cast_nonneg _)

lemma sil_ratio_bounds (a b : ℚ) (ha : 0 ≤ a) (hb : 0 ≤ b) :
    -1 ≤ (b - a) / max a b ∧ (b - a) / max a b ≤ 1 := by
  rcases eq_or_lt_of_le (le_trans ha (le_max_left a b)) with hm | hm
  · have hA : a = 0 := le_antisymm (by rw [hm]; exact le_max_left a b) ha
    have hB : b = 0 := le_antisymm (by rw [hm]; exact le_max_right a b) hb
    rw [hA, hB]
    norm_num
  · have h1 : b - a ≤ max a b := by
      have := le_max_right a b
      linarith
    have h2 : -(max a b) ≤ b - a := by
      have := le_max_left a b
      linarith
    constructor
    · rw [le_div_iff hm]
      linarith
    · rw [div_le_one hm]
      exact h1

lemma silSample_bounds (dist : P → P → ℚ) (hd : ∀ x y, 0 ≤ dist x y)
    (pl : List (P × ℕ)) (p : P) (c : ℕ) :
    -1 ≤ silSample dist pl p c ∧ silSample dist pl p c ≤ 1 := by
  unfold silSample
  by_cases hown : (clusterOf pl c).length ≤ 1
  · rw [if_pos hown]; norm_num
  · rw [if_neg hown]
    have ha : 0 ≤ sumDist dist p (clusterOf pl c) /
        (((clusterOf pl c).length - 1 : ℕ) : ℚ) :=
      div_nonneg (sumDist_nonneg dist hd p _) (Nat.cast_nonneg _)
    have hb : 0 ≤ minList (((pl.map Prod.snd).dedup.filter (fun d => d != c)).map
        (fun d => meanDistTo dist p (clusterOf pl d))) := by
      apply minList_nonneg
      intro x hx
      rcases List.mem_map.mp hx with ⟨d, _, rfl⟩
      exact meanDistTo_nonneg dist hd p _
    exact sil_ratio_bounds _ _ ha hb

lemma listSum_le_length (l : List ℚ) (h : ∀ x ∈ l, x ≤ 1) :
    l.sum ≤ (l.length : ℚ) := by
  induction l with
  | nil => norm_num
  | cons x xs ih =>
      simp only [List.sum_cons, List.length_cons]
      push_cast
      have hx := h x (List.mem_cons_self x xs)
      have hxs := ih (fun y hy => h y (List.mem_cons_of_mem x hy))
      linarith

lemma neg_length_le_listSum (l : List ℚ) (h : ∀ x ∈ l, -1 ≤ x) :
    -((l.length : ℚ)) ≤ l.sum := by
  induction l with
  | nil => norm_num
  | cons x xs ih =>
      simp only [List.sum_cons, List.length_cons]
      push_cast
      have hx := h x (List.mem_cons_self x xs)
      have hxs := ih (fun y hy => h y (List.mem_cons_of_mem x hy))
      linarith

lemma mean_bounds (vals : List ℚ) (n : ℕ) (hn : vals.length = n)
    (hb : ∀ x ∈ vals, -1 ≤ x ∧ x ≤ 1) :
    -1 ≤ vals.sum / (n : ℚ) ∧ vals.sum / (n : ℚ) ≤ 1 := by
  by_cases h0 : n = 0
  · rw [h0, Nat.cast_zero, div_zero]
    norm_num
  · have hpos : (0 : ℚ) < (n : ℚ) := Nat.cast_pos.mpr (Nat.pos_of_ne_zero h0)
    constructor
    · rw [le_div_iff hpos]
      have := neg_length_le_listSum vals (fun x hx => (hb x hx).1)
      rw [hn] at this
      linarith
    · rw [div_le_one hpos]
      have := listSum_le_length vals (fun x hx => (hb x hx).2)
      rw [hn] at this
      linarith

lemma silhouette_score_bounds (dist : P → P → ℚ) (hd : ∀ x y, 0 ≤ dist x y)
    (pts : List P) (labels : List ℕ) :
    -1 ≤ silhouette_score dist pts labels ∧ silhouette_score dist pts labels ≤ 1 := by
  have hbounds : ∀ x ∈ (pts.zip labels).map
      (fun q => silSample dist (pts.zip labels) q.1 q.2), -1 ≤ x ∧ x ≤ 1 := by
    intro x hx
    rcases List.mem_map.mp hx with ⟨q, _, rfl⟩
    exact silSample_bounds dist hd (pts.zip labels) q.1 q.2
  exact mean_bounds _ _ (List.length_map _ _) hbounds

end Silhouette

/-- C10.  The silhouette sweep evaluates every cluster count from 2
through 10 inclusive, in ascending order, and produces exactly 9
silhouette scores, one per k; and for any point set, any distance
(non-negative, as every metric is) and any labellings the k-means fits
return, every produced score lies in [-1, 1]. -/
theorem C10_silhouette_sweep {P : Type} (pts : List P) (dist : P → P → ℚ)
    (fit : ℕ → List ℕ) (hd : ∀ x y, 0 ≤ dist x y) :
    (silhouette_scores dist pts fit).length = 9 ∧
    sweep_ks = [2, 3, 4, 5, 6, 7, 8, 9, 10] ∧
    ∀ s ∈ silhouette_scores dist pts fit, -1 ≤ s ∧ s ≤ 1 := by
  refine ⟨?_, by decide, ?_⟩
  · unfold silhouette_scores
    rw [List.length_map]
    decide
  · intro s hs
    unfold silhouette_scores at hs
    rcases List.mem_map.mp hs with ⟨k, _, rfl⟩
    exact silhouette_score_bounds dist hd pts (fit k)

/-- Witness for C10 at a concrete two-point configuration with the
absolute-difference metric. -/
theorem C10_silhouette_sweep_witness :
    (silhouette_scores (fun x y : ℚ => |x - y|) [0, 1] (fun _ => [0, 1])).length = 9 ∧
    sweep_ks = [2, 3, 4, 5, 6, 7, 8, 9, 10] ∧
    ∀ s ∈ silhouette_scores (fun x y : ℚ => |x - y|) [0, 1] (fun _ => [0, 1]),
      -1 ≤ s ∧ s ≤ 1 :=
  C10_silhouette_sweep [0, 1] (fun x y => |x - y|) (fun _ => [0, 1])
    (fun x y => abs_nonneg (x - y))

end FacialPain
